import Mathlib

/-!
# Verification of the Movie Recommender (`app.py`)

Shallow embedding of the recommendation and genre-browsing logic of
`src/app.py`.  Similarity scores are modelled as rationals (the code only
compares them), the catalog dataframe as a list of titles together with the
optional "movie_id" / "id" integer columns, and the external TMDB service as
explicit oracle parameters (the `fetch_poster` / HTTP layer of the code).
In Python, `list.sort(key=..., reverse=True)` is a stable sort descending by
key; it is embedded as a stable descending insertion sort, which agrees
extensionally with any stable sort under the same key.
-/

namespace MovieRec

/-- The constant `TOP_K = 5` of app.py. -/
def TOP_K : Nat := 5

/-- The constant `POSTER_BASE` of app.py. -/
def POSTER_BASE : String := "https://image.tmdb.org/t/p/w500"

/-- The Python test `if not TMDB_API_KEY`: the key is missing (`None`) or empty. -/
def keyMissing : Option String → Bool
  | none => true
  | some s => s == ""

/-- The catalog dataframe `movies_df`: the "title" column plus the optional
"movie_id" and "id" integer columns (other columns are never read). -/
structure MoviesDF where
  titles : List String
  movieId : Option (List Int)
  id : Option (List Int)

/-- The column choice `id_col = "movie_id" if "movie_id" in movies_df.columns
else ("id" if "id" in movies_df.columns else None)` of app.py line 121. -/
def idColOf (df : MoviesDF) : Option (List Int) :=
  match df.movieId with
  | some c => some c
  | none => df.id

/-- Insert one element into a list already sorted descending by score,
keeping it before the first element whose score is not larger: the
insertion step of a stable descending sort by the second component. -/
def insertDesc (x : Nat × ℚ) : List (Nat × ℚ) → List (Nat × ℚ)
  | [] => [x]
  | y :: ys => if x.2 < y.2 then y :: insertDesc x ys else x :: y :: ys

/-- The sort `sims.sort(key=lambda x: x[1], reverse=True)` of app.py line 118:
stable sort, descending by the score component. -/
def sortDesc : List (Nat × ℚ) → List (Nat × ℚ)
  | [] => []
  | x :: xs => insertDesc x (sortDesc xs)

/-- The sorted `sims` list with the self index removed:
`[(i, s) for i, s in sorted-sims if i != i_sel]` (app.py lines 117-119,
before projecting out the indices). -/
def rankedPairs (iSel : Nat) (row : List ℚ) : List (Nat × ℚ) :=
  (sortDesc row.enum).filter (fun p => p.1 ≠ iSel)

/-- The comprehension `top_idxs = [i for i, _ in sims if i != i_sel][:TOP_K]`
of app.py line 119. -/
def topIdxs (iSel : Nat) (row : List ℚ) : List Nat :=
  ((rankedPairs iSel row).map Prod.fst).take TOP_K

/-- The function `recommend` of app.py lines 109-134.  `fp` is the `fetch_poster`
collaborator (an oracle for the external TMDB call). -/
def recommend (fp : Int → Option String) (selectedTitle : String)
    (moviesDf : MoviesDF) (similarityMatrix : List (List ℚ)) :
    List String × List (Option String) × List Int :=
  if selectedTitle ∈ moviesDf.titles then
    let iSel := moviesDf.titles.indexOf selectedTitle
    let idxs := topIdxs iSel (similarityMatrix.getD iSel [])
    let names := idxs.map (fun i => moviesDf.titles.getD i "")
    match idColOf moviesDf with
    | some col =>
      let ids := idxs.map (fun i => col.getD i 0)
      (names, ids.map fp, ids)
    | none =>
      (names, idxs.map (fun _ => (none : Option String)),
        idxs.map (fun _ => (-1 : Int)))
  else ([], [], [])

/-- A movie summary returned by the TMDB discover endpoint: the fields the
genre tab reads (`id`, `title`/`name`, `poster_path`). -/
structure MovieSummary where
  tmdbId : Int
  title : Option String
  name : Option String
  posterPath : Option String
deriving DecidableEq

/-- The function `fetch_poster` of app.py lines 93-106, with the HTTP layer as an oracle
`net`: `net movieId = none` is a request failure after retries, otherwise
the optional `poster_path` field of the JSON body. -/
def fetch_poster (apiKey : Option String) (net : Int → Option (Option String))
    (movieId : Int) : Option String :=
  if keyMissing apiKey then none
  else
    match net movieId with
    | none => none
    | some posterPath =>
      match posterPath with
      | some p => if p == "" then none else some (POSTER_BASE ++ p)
      | none => none

/-- The function `fetch_by_genre` of app.py lines 159-181, with the HTTP layer as an
oracle `net`: `net genreId page = none` is a request failure after retries,
otherwise the `results` list of the JSON body (`data.get("results", [])`). -/
def fetch_by_genre (apiKey : Option String)
    (net : Int → Int → Option (List MovieSummary)) (genreId page : Int) :
    List MovieSummary :=
  if keyMissing apiKey then []
  else
    match net genreId page with
    | none => []
    | some results => results

/-- What the genre tab renders. -/
inductive GenreOutcome where
  | fetchFailNotice : GenreOutcome
  | cards : List MovieSummary → GenreOutcome
deriving DecidableEq

/-- The tab-2 click handler (app.py lines 254-265): concatenate the two
fetched pages, warn if empty, otherwise render the first `TOP_K` results. -/
def showGenre (page1 page2 : List MovieSummary) : GenreOutcome :=
  let results := page1 ++ page2
  if results.isEmpty then GenreOutcome.fetchFailNotice
  else GenreOutcome.cards (results.take TOP_K)

/-! ## Concrete data for scenarios -/

/-- The score 0.9 as an explicit rational. -/
def q09 : ℚ := ⟨9, 10, by norm_num, by norm_num⟩

/-- The score 0.95 as an explicit rational. -/
def q095 : ℚ := ⟨19, 20, by norm_num, by norm_num⟩

/-- The score 0.1 as an explicit rational. -/
def q01 : ℚ := ⟨1, 10, by norm_num, by norm_num⟩

/-- The score 0.5 as an explicit rational. -/
def q05 : ℚ := ⟨1, 2, by norm_num, by norm_num⟩

/-- The scenario catalog of the spec: titles A, B, C, D with external ids
0, 1, 2, 3. -/
def catABCD : MoviesDF := ⟨["A", "B", "C", "D"], some [0, 1, 2, 3], none⟩

/-- A similarity matrix whose row for "A" is [1.0, 0.9, 0.95, 0.1]. -/
def matABCD : List (List ℚ) :=
  [[1, q09, q095, q01], [q09, 1, 0, 0], [q095, 0, 1, 0], [q01, 0, 0, 1]]

/-- A catalog containing the title "A" twice (no id columns). -/
def dupDF : MoviesDF := ⟨["A", "A"], none, none⟩

/-- A three-title catalog with distinct titles and a "movie_id" column. -/
def catABC : MoviesDF := ⟨["A", "B", "C"], some [10, 11, 12], none⟩

/-- A 3x3 similarity matrix with tied scores 0.5 at indices 1 and 2 in
row 0. -/
def matTie : List (List ℚ) :=
  [[1, q05, q05], [q05, 1, 0], [q05, 0, 1]]

/-- A two-title catalog without id columns. -/
def catNoId : MoviesDF := ⟨["A", "B"], none, none⟩

/-- The identity 2x2 similarity matrix. -/
def mat2 : List (List ℚ) := [[1, 0], [0, 1]]

/-- A concrete movie summary for the genre-tab scenario. -/
def sum1 : MovieSummary := ⟨7, some "T", none, none⟩

/-! ## Properties of the stable descending sort -/

/-- The intended order of the ranking: strictly larger score first, equal
scores broken by ascending original index. -/
def rankBefore (a b : Nat × ℚ) : Prop :=
  b.2 < a.2 ∨ (a.2 = b.2 ∧ a.1 < b.1)

theorem insertDesc_perm (x : Nat × ℚ) :
    ∀ l : List (Nat × ℚ), List.Perm (insertDesc x l) (x :: l)
  | [] => List.Perm.refl _
  | y :: ys => by
    unfold insertDesc
    split
    · exact (((insertDesc_perm x ys).cons y).trans (List.Perm.swap x y ys))
    · exact List.Perm.refl _

theorem sortDesc_perm : ∀ l : List (Nat × ℚ), List.Perm (sortDesc l) l
  | [] => List.Perm.refl _
  | x :: xs => (insertDesc_perm x (sortDesc xs)).trans ((sortDesc_perm xs).cons x)

/-- Inserting an element whose index is smaller than every index in the
list preserves the ranking order. -/
theorem insertDesc_pairwise (x : Nat × ℚ) :
    ∀ l : List (Nat × ℚ), l.Pairwise rankBefore → (∀ y ∈ l, x.1 < y.1) →
      (insertDesc x l).Pairwise rankBefore
  | [], _, _ => by simp [insertDesc]
  | y :: ys, hp, hx => by
    rw [List.pairwise_cons] at hp
    obtain ⟨hy, hys⟩ := hp
    unfold insertDesc
    split
    · rename_i h
      refine List.pairwise_cons.mpr ⟨?_, ?_⟩
      · intro z hz
        rcases List.mem_cons.mp ((insertDesc_perm x ys).subset hz) with rfl | hzys
        · exact Or.inl h
        · exact hy z hzys
      · exact insertDesc_pairwise x ys hys fun y' hy' => hx y' (List.mem_cons_of_mem y hy')
    · rename_i h
      have hyx : y.2 ≤ x.2 := le_of_not_lt h
      refine List.pairwise_cons.mpr ⟨?_, List.pairwise_cons.mpr ⟨hy, hys⟩⟩
      intro z hz
      rcases List.mem_cons.mp hz with rfl | hzys
      · rcases lt_or_eq_of_le hyx with hlt | heq
        · exact Or.inl hlt
        · exact Or.inr ⟨heq.symm, hx z (List.mem_cons_self z ys)⟩
      · rcases hy z hzys with hlt | ⟨heq, _⟩
        · exact Or.inl (lt_of_lt_of_le hlt hyx)
        · rcases lt_or_eq_of_le hyx with hlt2 | heq2
          · exact Or.inl (heq ▸ hlt2)
          · exact Or.inr ⟨heq2.symm.trans heq, hx z (List.mem_cons_of_mem y hzys)⟩

/-- The stable descending sort of a list whose indices are strictly
increasing is ordered by `rankBefore`. -/
theorem sortDesc_pairwise :
    ∀ l : List (Nat × ℚ), l.Pairwise (fun a b => a.1 < b.1) →
      (sortDesc l).Pairwise rankBefore
  | [], _ => by simp [sortDesc]
  | x :: xs, h => by
    rw [List.pairwise_cons] at h
    exact insertDesc_pairwise x (sortDesc xs) (sortDesc_pairwise xs h.2)
      fun y hy => h.1 y ((sortDesc_perm xs).subset hy)

theorem enum_pairwise_fst (row : List ℚ) :
    row.enum.Pairwise (fun a b => a.1 < b.1) := by
  have h := List.pairwise_lt_range row.length
  rw [← List.enum_map_fst, List.pairwise_map] at h
  exact h

theorem rankedPairs_pairwise (iSel : Nat) (row : List ℚ) :
    (rankedPairs iSel row).Pairwise rankBefore :=
  (sortDesc_pairwise row.enum (enum_pairwise_fst row)).filter _

/-- Every pair surviving into the ranking carries the score of its index
in the similarity row. -/
theorem rankedPairs_snd_eq (iSel : Nat) (row : List ℚ) :
    ∀ p ∈ rankedPairs iSel row, row.getD p.1 0 = p.2 := by
  intro p hp
  have hmem : p ∈ row.enum :=
    (sortDesc_perm row.enum).subset (List.mem_filter.mp hp).1
  have := List.mem_enum_iff_getElem?.mp hmem
  simp [List.getD_eq_getElem?_getD, this]

/-- Every index in the ranking differs from the self index and addresses
the similarity row. -/
theorem mem_topIdxs (iSel : Nat) (row : List ℚ) :
    ∀ i ∈ topIdxs iSel row, i ≠ iSel ∧ i < row.length := by
  intro i hi
  have hi2 : i ∈ (rankedPairs iSel row).map Prod.fst :=
    (List.take_sublist _ _).subset hi
  obtain ⟨p, hp, rfl⟩ := List.mem_map.mp hi2
  have hfil := List.mem_filter.mp hp
  refine ⟨by simpa using hfil.2, ?_⟩
  exact List.fst_lt_of_mem_enum ((sortDesc_perm _).subset hfil.1)

/-- For a title present in the catalog, the names component of
`recommend` is the ranked index list mapped through the title column. -/
theorem recommend_names (fp : Int → Option String) (t : String)
    (c : MoviesDF) (m : List (List ℚ)) (h : t ∈ c.titles) :
    (recommend fp t c m).1 =
      (topIdxs (c.titles.indexOf t) (m.getD (c.titles.indexOf t) [])).map
        (fun i => c.titles.getD i "") := by
  simp only [recommend, if_pos h]
  split <;> rfl

/-- The ranking over a row addressing the self index has exactly
`min TOP_K (length - 1)` entries. -/
theorem topIdxs_length (iSel : Nat) (row : List ℚ) (hsel : iSel < row.length) :
    (topIdxs iSel row).length = min TOP_K (row.length - 1) := by
  unfold topIdxs
  rw [List.length_take, List.length_map]
  congr 1
  unfold rankedPairs
  have hperm : List.Perm ((sortDesc row.enum).filter (fun p => decide (p.1 ≠ iSel)))
      (row.enum.filter (fun p => decide (p.1 ≠ iSel))) :=
    (sortDesc_perm row.enum).filter _
  rw [hperm.length_eq]
  have h2 : (row.enum.filter (fun p => decide (p.1 ≠ iSel))).map Prod.fst =
      (row.enum.map Prod.fst).filter (fun i => decide (i ≠ iSel)) := by
    rw [List.filter_map]
    rfl
  have h3 : (row.enum.filter (fun p => decide (p.1 ≠ iSel))).length =
      ((row.enum.map Prod.fst).filter (fun i => decide (i ≠ iSel))).length := by
    rw [← h2, List.length_map]
  rw [h3, List.enum_map_fst]
  have h4 : (List.range row.length).filter (fun i => decide (i ≠ iSel)) =
      (List.range row.length).filter (fun i => i != iSel) :=
    List.filter_congr fun a _ => by simp [bne, Bool.beq_eq_decide_eq]
  rw [h4, ← List.Nodup.erase_eq_filter (List.nodup_range _) iSel,
    List.length_erase_of_mem (List.mem_range.mpr hsel), List.length_range]

/-! ## Claims -/

/-- C1: for every title of the catalog, the ranking computed by
`recommend` (the index list `top_idxs` drawn from the sorted `sims`) is
sorted by descending similarity score, and two indices with identical
scores appear in ascending original-index order (stability of the
sort). -/
theorem recommend_ranking_sorted_stable (iSel : Nat) (row : List ℚ) :
    (topIdxs iSel row).Pairwise (fun i j =>
      row.getD j 0 < row.getD i 0 ∨ (row.getD i 0 = row.getD j 0 ∧ i < j)) := by
  have hpair := rankedPairs_pairwise iSel row
  have hsnd := rankedPairs_snd_eq iSel row
  have hmap : ((rankedPairs iSel row).map Prod.fst).Pairwise (fun i j =>
      row.getD j 0 < row.getD i 0 ∨ (row.getD i 0 = row.getD j 0 ∧ i < j)) := by
    rw [List.pairwise_map]
    refine hpair.imp_of_mem ?_
    intro a b ha hb hab
    rw [hsnd a ha, hsnd b hb]
    exact hab
  exact List.Pairwise.sublist (List.take_sublist _ _) hmap

/-- C3: for a `selected_title` matching no catalog title, `recommend`
returns the empty triple and raises no error. -/
theorem recommend_unknown_title_empty (fp : Int → Option String)
    (t : String) (c : MoviesDF) (m : List (List ℚ)) (h : t ∉ c.titles) :
    recommend fp t c m = ([], [], []) := by
  simp [recommend, h]

theorem recommend_unknown_title_empty_witness :
    "Z" ∉ catNoId.titles ∧
      recommend (fun _ => none) "Z" catNoId mat2 = ([], [], []) :=
  ⟨by decide, recommend_unknown_title_empty (fun _ => none) "Z" catNoId mat2 (by decide)⟩

/-- C9: the three lists returned by `recommend` always have equal
length: each accepted index contributes one name, one poster and one
id. -/
theorem recommend_lengths_align (fp : Int → Option String) (t : String)
    (c : MoviesDF) (m : List (List ℚ)) :
    (recommend fp t c m).1.length = (recommend fp t c m).2.1.length ∧
      (recommend fp t c m).1.length = (recommend fp t c m).2.2.length := by
  unfold recommend
  split
  · dsimp only
    split <;> simp
  · simp

/-- C6: on the scenario catalog with row
[1.0, 0.9, 0.95, 0.1] for "A", the first two recommendations are "C"
then "B". -/
theorem recommend_scenario_ABCD :
    (recommend (fun _ => none) "A" catABCD matABCD).1.take 2 = ["C", "B"] := by
  decide

/-- C7: the genre tab shows exactly the first `TOP_K` elements of page 1
followed by page 2, unreordered, and shows the could-not-fetch notice
when both pages are empty. -/
theorem genre_tab_passthrough :
    (∀ page1 page2 : List MovieSummary, page1 ++ page2 ≠ [] →
        showGenre page1 page2 = GenreOutcome.cards ((page1 ++ page2).take TOP_K)) ∧
      showGenre [] [] = GenreOutcome.fetchFailNotice := by
  constructor
  · intro p1 p2 h
    simp [showGenre, h]
  · rfl

theorem genre_tab_passthrough_witness :
    showGenre [sum1] [] = GenreOutcome.cards (([sum1] ++ []).take TOP_K) :=
  genre_tab_passthrough.1 [sum1] [] (by decide)

/-- C8: with the API credential absent, `fetch_poster` returns no poster
and `fetch_by_genre` returns the empty list, for every identifier, page
and network behaviour. -/
theorem missing_key_disables_features :
    (∀ (net : Int → Option (Option String)) (movieId : Int),
        fetch_poster none net movieId = none) ∧
      ∀ (net : Int → Int → Option (List MovieSummary)) (genreId page : Int),
        fetch_by_genre none net genreId page = [] :=
  ⟨fun _ _ => rfl, fun _ _ _ => rfl⟩

/-- C5: with the poster collaborator fixed, `recommend` is
deterministic: equal titles, catalogs and matrices give equal outputs
(inputs are immutable values, so no call mutates the catalog or the
matrix). -/
theorem recommend_deterministic (fp : Int → Option String)
    (t₁ t₂ : String) (c₁ c₂ : MoviesDF) (m₁ m₂ : List (List ℚ))
    (h₁ : t₁ = t₂) (h₂ : c₁ = c₂) (h₃ : m₁ = m₂) :
    recommend fp t₁ c₁ m₁ = recommend fp t₂ c₂ m₂ := by
  rw [h₁, h₂, h₃]

theorem recommend_deterministic_witness :
    recommend (fun _ => none) "A" catABC matTie =
      recommend (fun _ => none) "A" catABC matTie :=
  recommend_deterministic (fun _ => none) "A" "A" catABC catABC matTie matTie
    rfl rfl rfl

/-- C2 fails as stated: on a catalog holding the title "A" twice,
`recommend "A"` returns an entry equal to the queried title, because
only the matched index (the first occurrence) is excluded. -/
theorem recommend_dup_title_counterexample :
    ¬ ∀ name ∈ (recommend (fun _ => none) "A" dupDF mat2).1, name ≠ "A" := by
  decide

/-- C2 (amended): for an aligned similarity row and a catalog whose
titles are pairwise distinct, `recommend` returns at most `TOP_K`
entries and none of them equals the queried title (the code excludes
only the matched index, so with duplicate titles another occurrence of
the queried title can be returned). -/
theorem recommend_at_most_K_and_no_self (fp : Int → Option String)
    (t : String) (c : MoviesDF) (m : List (List ℚ)) (hnd : c.titles.Nodup)
    (hrow : (m.getD (c.titles.indexOf t) []).length ≤ c.titles.length) :
    (recommend fp t c m).1.length ≤ TOP_K ∧
      ∀ name ∈ (recommend fp t c m).1, name ≠ t := by
  by_cases h : t ∈ c.titles
  · constructor
    · rw [recommend_names fp t c m h, List.length_map]
      exact List.length_take_le _ _
    · intro name hname
      rw [recommend_names fp t c m h] at hname
      obtain ⟨i, hi, rfl⟩ := List.mem_map.mp hname
      obtain ⟨hne, hlt⟩ := mem_topIdxs _ _ i hi
      have hlt2 : i < c.titles.length := lt_of_lt_of_le hlt hrow
      rw [List.getD_eq_getElem?_getD, List.getElem?_eq_getElem hlt2]
      intro heq
      simp only [Option.getD_some] at heq
      have hidx := List.indexOf_getElem hnd i hlt2
      rw [heq] at hidx
      exact hne hidx.symm
  · simp [recommend, h]

theorem recommend_at_most_K_and_no_self_witness :
    catABC.titles.Nodup ∧
      ((recommend (fun _ => none) "A" catABC matTie).1.length ≤ TOP_K ∧
        ∀ name ∈ (recommend (fun _ => none) "A" catABC matTie).1, name ≠ "A") :=
  ⟨by decide,
    recommend_at_most_K_and_no_self (fun _ => none) "A" catABC matTie
      (by decide) (by decide)⟩

/-- C4: for a title present in a catalog of N records whose similarity
row has length N, the result of `recommend` has length exactly
`min TOP_K (N - 1)`. -/
theorem recommend_result_length (fp : Int → Option String) (t : String)
    (c : MoviesDF) (m : List (List ℚ)) (h : t ∈ c.titles)
    (hrow : (m.getD (c.titles.indexOf t) []).length = c.titles.length) :
    (recommend fp t c m).1.length = min TOP_K (c.titles.length - 1) := by
  have hsel : c.titles.indexOf t < (m.getD (c.titles.indexOf t) []).length := by
    rw [hrow]
    exact List.indexOf_lt_length.mpr h
  rw [recommend_names fp t c m h, List.length_map, topIdxs_length _ _ hsel, hrow]

theorem recommend_result_length_witness :
    "A" ∈ catABC.titles ∧
      (recommend (fun _ => none) "A" catABC matTie).1.length =
        min TOP_K (catABC.titles.length - 1) :=
  ⟨by decide,
    recommend_result_length (fun _ => none) "A" catABC matTie
      (by decide) (by decide)⟩

/-- C10: with neither a "movie_id" nor an "id" column, `recommend`
returns -1 as every external identifier and no poster for every entry,
while the names component is still the ranked titles. -/
theorem recommend_no_id_column (fp : Int → Option String) (t : String)
    (c : MoviesDF) (m : List (List ℚ)) (h1 : c.movieId = none)
    (h2 : c.id = none) (h : t ∈ c.titles) :
    (recommend fp t c m).2.2 = (recommend fp t c m).1.map (fun _ => (-1 : Int)) ∧
      (recommend fp t c m).2.1 =
        (recommend fp t c m).1.map (fun _ => (none : Option String)) ∧
      (recommend fp t c m).1 =
        (topIdxs (c.titles.indexOf t) (m.getD (c.titles.indexOf t) [])).map
          (fun i => c.titles.getD i "") := by
  have hcol : idColOf c = none := by simp [idColOf, h1, h2]
  simp only [recommend, if_pos h, hcol]
  simp [List.map_map, Function.comp_def]

theorem recommend_no_id_column_witness :
    catNoId.movieId = none ∧ catNoId.id = none ∧
      ((recommend (fun _ => none) "A" catNoId mat2).2.2 =
          (recommend (fun _ => none) "A" catNoId mat2).1.map (fun _ => (-1 : Int)) ∧
        (recommend (fun _ => none) "A" catNoId mat2).2.1 =
          (recommend (fun _ => none) "A" catNoId mat2).1.map
            (fun _ => (none : Option String)) ∧
        (recommend (fun _ => none) "A" catNoId mat2).1 =
          (topIdxs (catNoId.titles.indexOf "A")
              (mat2.getD (catNoId.titles.indexOf "A") [])).map
            (fun i => catNoId.titles.getD i "")) :=
  ⟨rfl, rfl,
    recommend_no_id_column (fun _ => none) "A" catNoId mat2 rfl rfl (by decide)⟩

end MovieRec
